import Mathlib

/-!
Verification of the adaptive-learning-agent tutoring core: a shallow
embedding of the assessment question bank and decision graph
(`assessment/questions.py`), the answer evaluator
(`assessment/evaluator.py`), the diagnostic assessment
(`assessment/diagnostic.py`), session bookkeeping (`state/session.py`),
the learner profile (`state/learner.py`) and the orchestrator's
index-keyed level rule (`agent/tutor.py`), together with theorems about
them.

Python strings are modelled as Lean `String` (a wrapper around
`List Char`); `str.lower` is modelled as ASCII lowercasing, `str.strip`
as trimming the ASCII whitespace characters, and the `in` substring
test as list-infix on the character data.  Python dicts with a fixed
key set become structures; the heterogeneous `QUESTION_SEQUENCE` dict
(one string value, eight dict values) becomes a sum type, and the
dynamic failure of calling `.get` on a string value is modelled with
`Except`.
-/

/-- The three learner levels used throughout the source
(`"beginner" | "intermediate" | "advanced"`). -/
inductive Level where
  | beginner
  | intermediate
  | advanced
deriving DecidableEq, Repr

/-- ASCII lowercasing of one character, modelling Python `str.lower`
on the character sets this program uses. -/
def toLowerChar (c : Char) : Char :=
  match c with
  | 'A' => 'a' | 'B' => 'b' | 'C' => 'c' | 'D' => 'd' | 'E' => 'e' | 'F' => 'f' | 'G' => 'g'
  | 'H' => 'h' | 'I' => 'i' | 'J' => 'j' | 'K' => 'k' | 'L' => 'l' | 'M' => 'm' | 'N' => 'n'
  | 'O' => 'o' | 'P' => 'p' | 'Q' => 'q' | 'R' => 'r' | 'S' => 's' | 'T' => 't' | 'U' => 'u'
  | 'V' => 'v' | 'W' => 'w' | 'X' => 'x' | 'Y' => 'y' | 'Z' => 'z'
  | c => c

/-- The ASCII whitespace characters removed by Python `str.strip()`. -/
def isSpaceChar (c : Char) : Bool :=
  c == ' ' || c == '\t' || c == '\n' || c == '\r'

/-- Python `s.lower()`. -/
def pyLower (s : String) : String :=
  ⟨s.data.map toLowerChar⟩

/-- Drop leading and trailing whitespace from a character list. -/
def stripChars (l : List Char) : List Char :=
  ((l.dropWhile isSpaceChar).reverse.dropWhile isSpaceChar).reverse

/-- Python `s.strip()`. -/
def pyStrip (s : String) : String :=
  ⟨stripChars s.data⟩

/-- Bool-valued infix test on lists (`needle` occurs contiguously in
`hay`), used to model Python's substring operator `in`. -/
def listContains (hay needle : List Char) : Bool :=
  match hay with
  | [] => needle.isEmpty
  | _ :: t => needle.isPrefixOf hay || listContains t needle

/-- Python `needle in hay` on strings. -/
def strContains (hay needle : String) : Bool :=
  listContains hay.data needle.data

/-- The normalized evaluation verdict produced by `AnswerEvaluator`
(`evaluator.py`).  The Python dicts carry `correct`/`partial` plus an
optional `feedback` or `understanding` field. -/
structure Verdict where
  correct : Bool
  partialFlag : Bool
  feedback : Option String := none
  understanding : Option String := none
deriving DecidableEq, Repr

/-- `AnswerEvaluator.evaluate_simple` (`evaluator.py` lines 15-29):
lowercase and strip the answer; correct iff it equals the lowercased
expected answer or contains some acceptable variant as a substring. -/
def evaluate_simple (answer expected : String) (acceptable : List String) : Verdict :=
  let answer_lower := pyStrip (pyLower answer)
  let is_correct :=
    answer_lower == pyLower expected
      || acceptable.any (fun acc => strContains answer_lower (pyLower acc))
  { correct := is_correct, partialFlag := false, feedback := none }

/-- `AnswerEvaluator.evaluate_pattern` (`evaluator.py` lines 31-43):
count case-insensitive substring occurrences of the keyword patterns;
two or more is correct, exactly one is partial, zero is neither. -/
def evaluate_pattern (answer : String) (patterns : List String) : Verdict :=
  let answer_lower := pyLower answer
  let matchCount := patterns.countP (fun p => strContains answer_lower (pyLower p))
  if matchCount ≥ 2 then
    { correct := true, partialFlag := false, understanding := some "good" }
  else if matchCount ≥ 1 then
    { correct := false, partialFlag := true, understanding := some "partial" }
  else
    { correct := false, partialFlag := false, understanding := some "minimal" }

/-- A diagnostic question (`questions.py`): the optional dict keys
`acceptable_answers`, `acceptable_patterns`, `follow_up_if_wrong` and
`is_followup` are modelled with defaults matching the `.get` defaults
used by the readers. -/
structure Question where
  id : String
  level : Level
  question : String
  answer : String
  acceptable_answers : List String := []
  acceptable_patterns : List String := []
  topic : String
  follow_up_if_wrong : Option String := none
  is_followup : Bool := false
deriving DecidableEq, Repr

/-- The external LLM judge (`evaluate_with_llm`): an opaque function
from (question text, answer, expected, topic) to a verdict. -/
def LlmJudge := String → String → String → String → Verdict

/-- `AnswerEvaluator.evaluate` (`evaluator.py` lines 86-118): pattern
matching for open-ended questions (promoting partial to correct),
otherwise simple matching with optional delegation to the LLM judge
when the simple match fails. -/
def evaluate (client : Option LlmJudge) (use_llm : Bool) (q : Question) (answer : String) :
    Verdict :=
  if q.answer == "open_ended" then
    let result := evaluate_pattern answer q.acceptable_patterns
    { result with correct := result.correct || result.partialFlag }
  else
    let simple_result := evaluate_simple answer q.answer q.acceptable_answers
    if simple_result.correct then simple_result
    else
      match client, use_llm with
      | some judge, true => judge q.question answer q.answer q.topic
      | _, _ => simple_result

/-- `DIAGNOSTIC_QUESTIONS[0]` (`diag_001`). -/
def q001 : Question :=
  { id := "diag_001", level := .beginner,
    question := "What molecule carries genetic information in living things?",
    answer := "DNA", acceptable_answers := ["dna", "deoxyribonucleic acid"],
    topic := "dna_basics", follow_up_if_wrong := some "diag_001b" }

/-- `DIAGNOSTIC_QUESTIONS[1]` (`diag_001b`). -/
def q001b : Question :=
  { id := "diag_001b", level := .beginner,
    question := "Have you heard of DNA before? It stands for deoxyribonucleic acid. What do you think DNA does in your body?",
    answer := "open_ended",
    acceptable_patterns := ["instruction", "code", "information", "genes", "traits", "heredit", "blueprint"],
    topic := "dna_basics", is_followup := true }

/-- `DIAGNOSTIC_QUESTIONS[2]` (`diag_002`). -/
def q002 : Question :=
  { id := "diag_002", level := .beginner,
    question := "If brown eyes (B) are dominant over blue eyes (b), what eye color would someone with genotype 'Bb' have?",
    answer := "brown", acceptable_answers := ["brown", "brown eyes"],
    topic := "mendelian_inheritance", follow_up_if_wrong := some "diag_002b" }

/-- `DIAGNOSTIC_QUESTIONS[3]` (`diag_002b`). -/
def q002b : Question :=
  { id := "diag_002b", level := .beginner,
    question := "Do you know what 'dominant' and 'recessive' mean in genetics?",
    answer := "open_ended",
    acceptable_patterns := ["dominant shows", "dominant wins", "recessive hidden", "recessive needs two", "masks"],
    topic := "mendelian_inheritance", is_followup := true }

/-- `DIAGNOSTIC_QUESTIONS[4]` (`diag_003`). -/
def q003 : Question :=
  { id := "diag_003", level := .intermediate,
    question := "If two parents with genotype Bb have children, what percentage of their children would you expect to have genotype bb?",
    answer := "25%",
    acceptable_answers := ["25%", "25", "1/4", "one fourth", "one quarter", "25 percent"],
    topic := "punnett_squares", follow_up_if_wrong := some "diag_003b" }

/-- `DIAGNOSTIC_QUESTIONS[5]` (`diag_003b`). -/
def q003b : Question :=
  { id := "diag_003b", level := .intermediate,
    question := "Have you used Punnett squares before to predict offspring traits?",
    answer := "open_ended",
    acceptable_patterns := ["yes", "learned", "grid", "square", "cross"],
    topic := "punnett_squares", is_followup := true }

/-- `DIAGNOSTIC_QUESTIONS[6]` (`diag_004`). -/
def q004 : Question :=
  { id := "diag_004", level := .intermediate,
    question := "What is the term for different versions of the same gene, like B and b for eye color?",
    answer := "alleles", acceptable_answers := ["allele", "alleles"],
    topic := "mendelian_inheritance" }

/-- `DIAGNOSTIC_QUESTIONS[7]` (`diag_005`). -/
def q005 : Question :=
  { id := "diag_005", level := .advanced,
    question := "Two brown-eyed parents have a blue-eyed child. What must be true about the parents' genotypes?",
    answer := "Both must be heterozygous (Bb)",
    acceptable_answers := ["bb", "heterozygous", "Bb", "both Bb", "both heterozygous", "carriers"],
    topic := "punnett_squares" }

/-- The static question bank `DIAGNOSTIC_QUESTIONS` (`questions.py`). -/
def DIAGNOSTIC_QUESTIONS : List Question :=
  [q001, q001b, q002, q002b, q003, q003b, q004, q005]

/-- `get_question` (`questions.py` lines 90-95): linear scan of the
bank by id. -/
def get_question (question_id : String) : Option Question :=
  DIAGNOSTIC_QUESTIONS.find? (fun q => q.id == question_id)

/-- A value of the `QUESTION_SEQUENCE` dict (`questions.py` lines
77-87): the `"start"` key maps to a bare string, every other key to a
dict carrying either an unconditional `next` id or a
`correct`/`wrong` branch pair. -/
inductive SeqVal where
  | str (s : String)
  | branch (next correct wrong : Option String)
deriving DecidableEq, Repr

/-- The static `QUESTION_SEQUENCE` dict as a lookup function. -/
def QUESTION_SEQUENCE (key : String) : Option SeqVal :=
  if key = "start" then some (.str "diag_001")
  else if key = "diag_001" then some (.branch none (some "diag_002") (some "diag_001b"))
  else if key = "diag_001b" then some (.branch (some "diag_002") none none)
  else if key = "diag_002" then some (.branch none (some "diag_003") (some "diag_002b"))
  else if key = "diag_002b" then some (.branch (some "diag_003") none none)
  else if key = "diag_003" then some (.branch none (some "diag_005") (some "diag_003b"))
  else if key = "diag_003b" then some (.branch (some "diag_004") none none)
  else if key = "diag_004" then some (.branch none (some "diag_005") (some "end"))
  else if key = "diag_005" then some (.branch none (some "end") (some "end"))
  else none

/-- `get_next_question` (`questions.py` lines 103-121).  Unknown ids
yield no question.  When the looked-up value is the bare string stored
under `"start"`, the code first runs the substring test
`"next" in next_mapping` and then either indexes the string with a
string key (a `TypeError`) or calls `.get` on it (an
`AttributeError`); both dynamic failures are modelled as `Except.error`. -/
def get_next_question (current_id : String) (was_correct : Bool) :
    Except String (Option Question) :=
  match QUESTION_SEQUENCE current_id with
  | none => .ok none
  | some (.str s) =>
      if strContains s "next" then .error "TypeError"
      else .error "AttributeError"
  | some (.branch nxt corr wrong) =>
      let next_id :=
        match nxt with
        | some n => n
        | none => if was_correct then corr.getD "end" else wrong.getD "end"
      if next_id = "end" then .ok none
      else .ok (get_question next_id)

/-- `get_first_question` (`questions.py` lines 98-100): look up the id
stored under `"start"` in the bank.  The non-string arms are
unreachable (the `"start"` entry is the bare string `"diag_001"`). -/
def get_first_question : Option Question :=
  match QUESTION_SEQUENCE "start" with
  | some (.str s) => get_question s
  | _ => none

/-- Iterated decision-graph traversal: starting from an assessment
state (`ok (some q)` = at question `q`, `ok none` = ended, `error` =
a raised exception), feed one correctness boolean per step through
`get_next_question`. -/
def iterAssessment : Except String (Option Question) → List Bool → Except String (Option Question)
  | st, [] => st
  | .error e, _ => .error e
  | .ok none, _ => .ok none
  | .ok (some q), b :: rest => iterAssessment (get_next_question q.id b) rest

/-- One recorded answer of the diagnostic assessment
(`diagnostic.py` lines 33-41). -/
structure AssessResult where
  question_id : String
  question : String
  answer : String
  correct : Bool
  partialFlag : Bool
  level : Level
  topic : String
deriving DecidableEq, Repr

/-- The mutable state of a `DiagnosticAssessment` instance:
its `results` list and `current_question`. -/
structure DiagState where
  results : List AssessResult := []
  current_question : Option Question := none
deriving DecidableEq, Repr

/-- The dict returned by `DiagnosticAssessment.submit_answer`: either
the error dict `{"error": ..., "complete": True}` or the normal dict
carrying the evaluation, the next question and the completion flag. -/
inductive SubmitResult where
  | err (msg : String) (complete : Bool)
  | ok (evaluation : Verdict) (next_question : Option Question) (complete : Bool)
deriving DecidableEq, Repr

/-- `DiagnosticAssessment.submit_answer` (`diagnostic.py` lines
24-53), as explicit state passing; a raised exception from the graph
lookup propagates as `Except.error`. -/
def submit_answer (client : Option LlmJudge) (st : DiagState) (answer : String) :
    Except String (SubmitResult × DiagState) :=
  match st.current_question with
  | none => .ok (.err "No active question" true, st)
  | some q =>
    let evaluation := evaluate client true q answer
    let results' := st.results ++
      [{ question_id := q.id, question := q.question, answer := answer,
         correct := evaluation.correct, partialFlag := evaluation.partialFlag,
         level := q.level, topic := q.topic }]
    match get_next_question q.id evaluation.correct with
    | .error e => .error e
    | .ok next_q =>
        .ok (.ok evaluation next_q next_q.isNone,
             { results := results', current_question := next_q })

/-- `level_counts[lv]` after the counting loop of `get_level`
(`diagnostic.py` lines 64-68): how many results carry level `lv`. -/
def level_count (results : List AssessResult) (lv : Level) : Nat :=
  results.countP (fun r => r.level == lv)

/-- `level_scores[lv]` after the counting loop of `get_level`: how
many results carry level `lv` and were correct. -/
def level_score (results : List AssessResult) (lv : Level) : Nat :=
  results.countP (fun r => r.level == lv && r.correct)

/-- The per-level percentage `level_scores[lv] / max(level_counts[lv], 1)`
computed by `get_level` (`diagnostic.py` lines 71-73). -/
def level_pct (results : List AssessResult) (lv : Level) : ℚ :=
  (level_score results lv : ℚ) / ((max (level_count results lv) 1 : Nat) : ℚ)

/-- `DiagnosticAssessment.get_level` (`diagnostic.py` lines 55-81). -/
def get_level (results : List AssessResult) : Level :=
  if results.isEmpty then .beginner
  else if level_pct results .advanced ≥ 1/2 ∧ level_pct results .intermediate ≥ 1/2 then
    .advanced
  else if level_pct results .intermediate ≥ 1/2 ∧ level_pct results .beginner ≥ 1/2 then
    .intermediate
  else .beginner

/-- The accumulation loop of `get_knowledge_gaps` (`diagnostic.py`
lines 85-91): an incorrect, non-partial result appends its topic when
the topic is non-empty (Python truthiness) and not yet collected. -/
def gaps_loop : List AssessResult → List String → List String
  | [], gaps => gaps
  | r :: rest, gaps =>
    if !r.correct && !r.partialFlag then
      if r.topic != "" && !(gaps.contains r.topic) then gaps_loop rest (gaps ++ [r.topic])
      else gaps_loop rest gaps
    else gaps_loop rest gaps

/-- `DiagnosticAssessment.get_knowledge_gaps` (`diagnostic.py` lines 83-91). -/
def get_knowledge_gaps (results : List AssessResult) : List String :=
  gaps_loop results []

/-- The accumulation loop of `get_strengths` (`diagnostic.py` lines
95-100). -/
def strengths_loop : List AssessResult → List String → List String
  | [], strengths => strengths
  | r :: rest, strengths =>
    if r.correct then
      if r.topic != "" && !(strengths.contains r.topic) then
        strengths_loop rest (strengths ++ [r.topic])
      else strengths_loop rest strengths
    else strengths_loop rest strengths

/-- `DiagnosticAssessment.get_strengths` (`diagnostic.py` lines 93-101). -/
def get_strengths (results : List AssessResult) : List String :=
  strengths_loop results []

/-- An entry of `SessionState.conversation_history` (`session.py`):
role, content and the timestamp taken at insertion time (modelled as
an abstract clock value passed in explicitly). -/
structure Exchange where
  role : String
  content : String
  timestamp : Nat
deriving DecidableEq, Repr

/-- An entry of `SessionState.assessment_answers` (`session.py` lines
52-59). -/
structure AssessAnswer where
  question_id : String
  answer : String
  correct : Bool
  timestamp : Nat
deriving DecidableEq, Repr

/-- An entry of `SessionState.problems_attempted` (`session.py` lines
42-50). -/
structure ProblemAttempt where
  problem_id : String
  answer : String
  correct : Bool
  feedback : String
  timestamp : Nat
deriving DecidableEq, Repr

/-- `SessionState` (`session.py` lines 9-22). -/
structure SessionState where
  session_id : String := ""
  learner_id : String := ""
  current_topic : Option String := none
  current_subtopic : Option String := none
  conversation_history : List Exchange := []
  questions_asked : Nat := 0
  problems_attempted : List ProblemAttempt := []
  session_start : Nat := 0
  flow_state : String := "start"
  assessment_answers : List AssessAnswer := []
deriving DecidableEq, Repr

/-- `SessionState.add_exchange` (`session.py` lines 31-40): append the
new entry, then keep only the last 20 entries (`history[-20:]`) when
the length exceeds 20. -/
def add_exchange (st : SessionState) (role content : String) (ts : Nat) : SessionState :=
  let h := st.conversation_history ++ [{ role := role, content := content, timestamp := ts }]
  { st with conversation_history := if h.length > 20 then h.drop (h.length - 20) else h }

/-- `Session.record_exchange` (`session.py` lines 105-109): record the
exchange and bump `questions_asked` when the role is `"assistant"`. -/
def record_exchange (st : SessionState) (role content : String) (ts : Nat) : SessionState :=
  let st' := add_exchange st role content ts
  if role == "assistant" then { st' with questions_asked := st'.questions_asked + 1 }
  else st'

/-- Fold a list of `(role, content, timestamp)` calls through
`record_exchange`. -/
def applyExchanges (st : SessionState) : List (String × String × Nat) → SessionState
  | [] => st
  | c :: rest => applyExchanges (record_exchange st c.1 c.2.1 c.2.2) rest

/-- `KnowledgeState` (`learner.py` lines 9-16); `topics_mastered` is a
Python dict modelled as an insertion-ordered association list, the
other fields are Python lists. -/
structure KnowledgeState where
  topics_mastered : List (String × Int) := []
  topics_in_progress : List String := []
  misconceptions : List String := []
  strengths : List String := []
deriving DecidableEq, Repr

/-- Python dict assignment `d[k] = v`: overwrite the value at an
existing key in place, else append the new key. -/
def dictSet : List (String × Int) → String → Int → List (String × Int)
  | [], k, v => [(k, v)]
  | (k', v') :: rest, k, v =>
    if k' == k then (k', v) :: rest else (k', v') :: dictSet rest k v

/-- Python dict lookup `d[k]`. -/
def dictGet : List (String × Int) → String → Option Int
  | [], _ => none
  | (k', v') :: rest, k => if k' == k then some v' else dictGet rest k

/-- Python `list.remove(x)`: delete the first occurrence only (the
call sites guard membership, so the missing-element `ValueError` path
never arises). -/
def pyRemove : List String → String → List String
  | [], _ => []
  | x :: rest, t => if x == t then rest else x :: pyRemove rest t

/-- `LearnerProfile.update_mastery` (`learner.py` lines 83-87): store
the clamped score `min(100, max(0, score))`, and when the raw score is
at least 70 remove the topic from `topics_in_progress` if present. -/
def update_mastery (k : KnowledgeState) (topic_id : String) (score : Int) : KnowledgeState :=
  let k' := { k with
    topics_mastered := dictSet k.topics_mastered topic_id (min 100 (max 0 score)) }
  if score ≥ 70 && k'.topics_in_progress.contains topic_id then
    { k' with topics_in_progress := pyRemove k'.topics_in_progress topic_id }
  else k'

/-- A generated assessment question as consumed by the orchestrator's
`_complete_assessment` (`tutor.py`): only the `level` key matters for
the tally, the rest of the payload is opaque. -/
structure GenQuestion where
  id : String
  level : Level
  question : String
  answer : String
deriving DecidableEq, Repr

/-- `correct_by_level[lv]` after the tally loop of
`DynamicTutor._complete_assessment` (`tutor.py` lines 237-242).  The
loop enumerates the recorded answers and, guarded by
`i < len(questions)`, tallies answer `i` under `questions[i].level`;
that index pairing is exactly `answers.zip questions`. -/
def correct_by_level (questions : List GenQuestion) (answers : List AssessAnswer)
    (lv : Level) : Nat :=
  (answers.zip questions).countP (fun p => p.1.correct && p.2.level == lv)

/-- `total_by_level[lv]` after the same tally loop (computed by the
source but unused by the level decision). -/
def total_by_level (questions : List GenQuestion) (answers : List AssessAnswer)
    (lv : Level) : Nat :=
  (answers.zip questions).countP (fun p => p.2.level == lv)

/-- The level decision of `DynamicTutor._complete_assessment`
(`tutor.py` lines 245-250): driven by the per-level correct counts
alone. -/
def complete_assessment_level (questions : List GenQuestion) (answers : List AssessAnswer) :
    Level :=
  if correct_by_level questions answers .advanced > 0
      && correct_by_level questions answers .intermediate > 0 then .advanced
  else if correct_by_level questions answers .intermediate > 0
      && correct_by_level questions answers .beginner > 0 then .intermediate
  else .beginner

/-- Claim-side accuracy (spec §4.3 wording): correct answers at a
level divided by answers attempted at that level, 0 if none
attempted.  Compared against the `max(count, 1)` form the source
computes. -/
def spec_accuracy (results : List AssessResult) (lv : Level) : ℚ :=
  if level_count results lv = 0 then 0
  else (level_score results lv : ℚ) / ((level_count results lv : Nat) : ℚ)

/-- First-occurrence deduplication, accumulator form. -/
def dedupFirstLoop : List String → List String → List String
  | [], acc => acc
  | t :: rest, acc =>
    if acc.contains t then dedupFirstLoop rest acc else dedupFirstLoop rest (acc ++ [t])

/-- First-occurrence deduplication of a list of topics, preserving
insertion order. -/
def dedupFirst (l : List String) : List String :=
  dedupFirstLoop l []

/-- The last 20 entries of a history list (`history[-20:]` once the
length reaches 20). -/
def last20 (l : List Exchange) : List Exchange :=
  l.drop (l.length - 20)

/-- The history entry produced by one `(role, content, timestamp)`
call. -/
def mkExchange (c : String × String × Nat) : Exchange :=
  { role := c.1, content := c.2.1, timestamp := c.2.2 }

deriving instance DecidableEq for Except

/-- Whether a modelled call returned normally (no raised exception). -/
def isOkResult {α : Type} : Except String α → Bool
  | .ok _ => true
  | .error _ => false

/-! ### String-model lemmas -/

theorem isSpaceChar_toLowerChar (c : Char) : isSpaceChar (toLowerChar c) = isSpaceChar c := by
  unfold toLowerChar
  split <;> rfl

theorem stripChars_map_toLowerChar (l : List Char) :
    stripChars (l.map toLowerChar) = (stripChars l).map toLowerChar := by
  have hp : isSpaceChar ∘ toLowerChar = isSpaceChar := funext isSpaceChar_toLowerChar
  unfold stripChars
  rw [List.dropWhile_map, hp, ← List.map_reverse, List.dropWhile_map, hp, List.map_reverse]

theorem pyStrip_pyLower (s : String) : pyStrip (pyLower s) = pyLower (pyStrip s) := by
  unfold pyStrip pyLower
  simp only [stripChars_map_toLowerChar]

/-! ### Claim C3: exact-match idempotence of `evaluate_simple` -/

/-- Claim C3 (counterexample): the claim as stated fails on the code.
The non-empty string `" a"` (a space followed by `a`) satisfies
`evaluate_simple(" a", " a", []).correct = False`, because the answer
side is stripped of surrounding whitespace while the expected side is
not. -/
theorem c3_counterexample : (evaluate_simple " a" " a" []).correct = false := by decide

/-- Claim C3 (amended): for every non-empty string `x` with no leading
or trailing whitespace, `evaluate_simple(x, x, [])` yields
`correct = true`. -/
theorem c3_exact_match (x : String) (hne : x ≠ "") (hstrip : pyStrip x = x) :
    (evaluate_simple x x []).correct = true := by
  unfold evaluate_simple
  simp [pyStrip_pyLower, hstrip]

/-- Concrete instantiation of `c3_exact_match` at `x = "Abc"`. -/
theorem c3_exact_match_witness : (evaluate_simple "Abc" "Abc" []).correct = true :=
  c3_exact_match "Abc" (by decide) (by decide)

/-! ### Claim C5: open-ended pattern grading through `evaluate` -/

/-- Claim C5: for an open-ended question, with `m` the number of
patterns occurring case-insensitively as substrings of the answer, the
final verdict of `evaluate` has `partial = (m = 1)` and
`correct = (m ≥ 1)` (partial promoted to correct), and with `m = 0`
the verdict is neither correct nor partial. -/
theorem c5_open_ended_grading (client : Option LlmJudge) (use_llm : Bool)
    (q : Question) (a : String) (h : q.answer = "open_ended") :
    ((evaluate client use_llm q a).partialFlag
      = decide (q.acceptable_patterns.countP (fun p => strContains (pyLower a) (pyLower p)) = 1))
    ∧ ((evaluate client use_llm q a).correct
      = decide (1 ≤ q.acceptable_patterns.countP (fun p => strContains (pyLower a) (pyLower p))))
    ∧ (q.acceptable_patterns.countP (fun p => strContains (pyLower a) (pyLower p)) = 0 →
        (evaluate client use_llm q a).correct = false
        ∧ (evaluate client use_llm q a).partialFlag = false) := by
  have hq : (q.answer == "open_ended") = true := by simp [h]
  unfold evaluate evaluate_pattern
  rw [hq]
  simp only [if_true]
  set m := q.acceptable_patterns.countP (fun p => strContains (pyLower a) (pyLower p)) with hm
  by_cases h2 : 2 ≤ m
  · rw [if_pos h2]
    refine ⟨by simp; omega, by simp; omega, by omega⟩
  · rw [if_neg h2]
    by_cases h1 : 1 ≤ m
    · rw [if_pos h1]
      refine ⟨by simp; omega, by simp; omega, by omega⟩
    · rw [if_neg h1]
      refine ⟨by simp; omega, by simp; omega, fun _ => by simp⟩

/-- Concrete instantiation of `c5_open_ended_grading` at question
`diag_001b` and an answer matching exactly the pattern `"genes"`. -/
theorem c5_open_ended_grading_witness :
    (evaluate none true q001b "genes").partialFlag = true
    ∧ (evaluate none true q001b "genes").correct = true := by
  have h := c5_open_ended_grading none true q001b "genes" (by decide)
  exact ⟨h.1.trans (by decide), h.2.1.trans (by decide)⟩

/-! ### Claim C6: `submit_answer` with no active question -/

/-- Claim C6: calling `submit_answer` when `current_question` is null
returns the error result marked `complete = true` and leaves the
state (results list and current question) exactly unchanged. -/
theorem c6_submit_answer_noop (client : Option LlmJudge) (st : DiagState) (answer : String)
    (h : st.current_question = none) :
    submit_answer client st answer = .ok (.err "No active question" true, st) := by
  unfold submit_answer
  rw [h]

/-- Concrete instantiation of `c6_submit_answer_noop` on the initial
(never started) state. -/
theorem c6_submit_answer_noop_witness :
    submit_answer none ⟨[], none⟩ "DNA" = .ok (.err "No active question" true, ⟨[], none⟩) :=
  c6_submit_answer_noop none ⟨[], none⟩ "DNA" rfl

/-! ### Claim C2: totality of `get_next_question` -/

/-- Claim C2 (counterexample): the claim as stated fails on the code.
For the reserved `"start"` key — present in the sequence table with a
bare string value — `get_next_question` raises (`.get` on a string)
instead of returning a question or null. -/
theorem c2_counterexample :
    get_next_question "start" true = .error "AttributeError"
    ∧ get_next_question "start" false = .error "AttributeError" := by
  exact ⟨by decide, by decide⟩

/-- Claim C2 (amended): for every id other than the reserved `"start"`
key and every correctness flag, `get_next_question` returns normally
(a question or null, never a raised exception), and for ids not
present in the sequence table it returns null. -/
theorem c2_no_raise (current_id : String) (was_correct : Bool) (hne : current_id ≠ "start") :
    isOkResult (get_next_question current_id was_correct) = true
    ∧ (QUESTION_SEQUENCE current_id = none →
        get_next_question current_id was_correct = .ok none) := by
  constructor
  · by_cases h1 : current_id = "diag_001"
    · subst h1; cases was_correct <;> decide
    by_cases h2 : current_id = "diag_001b"
    · subst h2; cases was_correct <;> decide
    by_cases h3 : current_id = "diag_002"
    · subst h3; cases was_correct <;> decide
    by_cases h4 : current_id = "diag_002b"
    · subst h4; cases was_correct <;> decide
    by_cases h5 : current_id = "diag_003"
    · subst h5; cases was_correct <;> decide
    by_cases h6 : current_id = "diag_003b"
    · subst h6; cases was_correct <;> decide
    by_cases h7 : current_id = "diag_004"
    · subst h7; cases was_correct <;> decide
    by_cases h8 : current_id = "diag_005"
    · subst h8; cases was_correct <;> decide
    have hQ : QUESTION_SEQUENCE current_id = none := by
      simp [QUESTION_SEQUENCE, hne, h1, h2, h3, h4, h5, h6, h7, h8]
    simp [get_next_question, hQ, isOkResult]
  · intro h
    unfold get_next_question
    rw [h]

/-- Concrete instantiation of `c2_no_raise` at `diag_001`. -/
theorem c2_no_raise_witness :
    isOkResult (get_next_question "diag_001" true) = true
    ∧ (QUESTION_SEQUENCE "diag_001" = none →
        get_next_question "diag_001" true = .ok none) :=
  c2_no_raise "diag_001" true (by decide)

/-! ### Claim C4: decision-graph termination -/

theorem iter_ok_none (bs : List Bool) : iterAssessment (.ok none) bs = .ok none := by
  cases bs <;> rfl

theorem iter_step (q : Question) (b : Bool) (rest : List Bool) :
    iterAssessment (.ok (some q)) (b :: rest) =
      iterAssessment (get_next_question q.id b) rest := rfl

theorem iter_from_005 (b : Bool) (bs : List Bool) :
    iterAssessment (get_next_question "diag_005" b) bs = .ok none := by
  have h : ∀ c, get_next_question "diag_005" c = .ok none := by decide
  rw [h, iter_ok_none]

theorem iter_q005 (bs : List Bool) (h : 1 ≤ bs.length) :
    iterAssessment (.ok (some q005)) bs = .ok none := by
  match bs with
  | [] => simp at h
  | b :: rest => rw [iter_step]; exact iter_from_005 b rest

theorem iter_from_004 (b : Bool) (bs : List Bool) (h : 1 ≤ bs.length) :
    iterAssessment (get_next_question "diag_004" b) bs = .ok none := by
  cases b
  · rw [(by decide : get_next_question "diag_004" false = .ok none), iter_ok_none]
  · rw [(by decide : get_next_question "diag_004" true = .ok (some q005))]
    exact iter_q005 bs h

theorem iter_q004 (bs : List Bool) (h : 2 ≤ bs.length) :
    iterAssessment (.ok (some q004)) bs = .ok none := by
  match bs with
  | [] => simp at h
  | b :: rest =>
    rw [iter_step]
    exact iter_from_004 b rest (by simp at h; omega)

theorem iter_from_003b (b : Bool) (bs : List Bool) (h : 2 ≤ bs.length) :
    iterAssessment (get_next_question "diag_003b" b) bs = .ok none := by
  have hb : ∀ c, get_next_question "diag_003b" c = .ok (some q004) := by decide
  rw [hb]
  exact iter_q004 bs h

theorem iter_q003b (bs : List Bool) (h : 3 ≤ bs.length) :
    iterAssessment (.ok (some q003b)) bs = .ok none := by
  match bs with
  | [] => simp at h
  | b :: rest =>
    rw [iter_step]
    exact iter_from_003b b rest (by simp at h; omega)

theorem iter_from_003 (b : Bool) (bs : List Bool) (h : 3 ≤ bs.length) :
    iterAssessment (get_next_question "diag_003" b) bs = .ok none := by
  cases b
  · rw [(by decide : get_next_question "diag_003" false = .ok (some q003b))]
    exact iter_q003b bs h
  · rw [(by decide : get_next_question "diag_003" true = .ok (some q005))]
    exact iter_q005 bs (by omega)

theorem iter_q003 (bs : List Bool) (h : 4 ≤ bs.length) :
    iterAssessment (.ok (some q003)) bs = .ok none := by
  match bs with
  | [] => simp at h
  | b :: rest =>
    rw [iter_step]
    exact iter_from_003 b rest (by simp at h; omega)

theorem iter_from_002b (b : Bool) (bs : List Bool) (h : 4 ≤ bs.length) :
    iterAssessment (get_next_question "diag_002b" b) bs = .ok none := by
  have hb : ∀ c, get_next_question "diag_002b" c = .ok (some q003) := by decide
  rw [hb]
  exact iter_q003 bs h

theorem iter_q002b (bs : List Bool) (h : 5 ≤ bs.length) :
    iterAssessment (.ok (some q002b)) bs = .ok none := by
  match bs with
  | [] => simp at h
  | b :: rest =>
    rw [iter_step]
    exact iter_from_002b b rest (by simp at h; omega)

theorem iter_from_002 (b : Bool) (bs : List Bool) (h : 5 ≤ bs.length) :
    iterAssessment (get_next_question "diag_002" b) bs = .ok none := by
  cases b
  · rw [(by decide : get_next_question "diag_002" false = .ok (some q002b))]
    exact iter_q002b bs h
  · rw [(by decide : get_next_question "diag_002" true = .ok (some q003))]
    exact iter_q003 bs (by omega)

theorem iter_q002 (bs : List Bool) (h : 6 ≤ bs.length) :
    iterAssessment (.ok (some q002)) bs = .ok none := by
  match bs with
  | [] => simp at h
  | b :: rest =>
    rw [iter_step]
    exact iter_from_002 b rest (by simp at h; omega)

theorem iter_from_001b (b : Bool) (bs : List Bool) (h : 6 ≤ bs.length) :
    iterAssessment (get_next_question "diag_001b" b) bs = .ok none := by
  have hb : ∀ c, get_next_question "diag_001b" c = .ok (some q002) := by decide
  rw [hb]
  exact iter_q002 bs h

theorem iter_q001b (bs : List Bool) (h : 7 ≤ bs.length) :
    iterAssessment (.ok (some q001b)) bs = .ok none := by
  match bs with
  | [] => simp at h
  | b :: rest =>
    rw [iter_step]
    exact iter_from_001b b rest (by simp at h; omega)

theorem iter_from_001 (b : Bool) (bs : List Bool) (h : 7 ≤ bs.length) :
    iterAssessment (get_next_question "diag_001" b) bs = .ok none := by
  cases b
  · rw [(by decide : get_next_question "diag_001" false = .ok (some q001b))]
    exact iter_q001b bs h
  · rw [(by decide : get_next_question "diag_001" true = .ok (some q002))]
    exact iter_q002 bs (by omega)

theorem iter_q001 (bs : List Bool) (h : 8 ≤ bs.length) :
    iterAssessment (.ok (some q001)) bs = .ok none := by
  match bs with
  | [] => simp at h
  | b :: rest =>
    rw [iter_step]
    exact iter_from_001 b rest (by simp at h; omega)

/-- Claim C4: from every question in the bank, iterating
`get_next_question` under any sequence of correctness booleans ends
(reaches null) within the bank size of 8 steps — the fixed question
graph has no cycles. -/
theorem c4_graph_termination (q : Question) (hq : q ∈ DIAGNOSTIC_QUESTIONS)
    (bs : List Bool) (h : 8 ≤ bs.length) :
    iterAssessment (.ok (some q)) bs = .ok none := by
  fin_cases hq
  · exact iter_q001 bs h
  · exact iter_q001b bs (by omega)
  · exact iter_q002 bs (by omega)
  · exact iter_q002b bs (by omega)
  · exact iter_q003 bs (by omega)
  · exact iter_q003b bs (by omega)
  · exact iter_q004 bs (by omega)
  · exact iter_q005 bs (by omega)

/-- Concrete instantiation of `c4_graph_termination`: starting from
`diag_001` with eight correct answers the traversal has ended. -/
theorem c4_graph_termination_witness :
    iterAssessment (.ok (some q001)) [true, true, true, true, true, true, true, true] = .ok none :=
  c4_graph_termination q001 (by decide) _ (by decide)

/-! ### Claim C1: diagnostic level classification -/

theorem level_score_le_count (results : List AssessResult) (lv : Level) :
    level_score results lv ≤ level_count results lv := by
  unfold level_score level_count
  refine List.countP_mono_left ?_
  intro r _ h
  simp only [Bool.and_eq_true] at h
  exact h.1

theorem level_pct_eq_spec (results : List AssessResult) (lv : Level) :
    level_pct results lv = spec_accuracy results lv := by
  unfold level_pct spec_accuracy
  by_cases h : level_count results lv = 0
  · have hs : level_score results lv = 0 :=
      Nat.le_zero.mp (h ▸ level_score_le_count results lv)
    rw [if_pos h, h, hs]
    norm_num
  · rw [if_neg h, Nat.max_eq_left (by omega)]

/-- Claim C1: `get_level` classifies strictly by per-level accuracy
(correct over attempted, 0 when none attempted): advanced when both
the advanced and intermediate accuracies reach 1/2, else intermediate
when both the intermediate and beginner accuracies reach 1/2, else
beginner; an empty results list gives beginner; and the three spec
scenarios (beginner 3/3, intermediate 0/2, advanced 0/0 → beginner;
beginner 2/2, intermediate 2/3, advanced 0/1 → intermediate;
beginner 1/1, intermediate 1/1, advanced 1/2 → advanced) come out as
claimed. -/
theorem c1_get_level :
    (∀ results : List AssessResult,
      get_level results =
        if spec_accuracy results .advanced ≥ 1/2 ∧ spec_accuracy results .intermediate ≥ 1/2
        then Level.advanced
        else if spec_accuracy results .intermediate ≥ 1/2
            ∧ spec_accuracy results .beginner ≥ 1/2
        then Level.intermediate
        else Level.beginner)
    ∧ get_level [] = Level.beginner
    ∧ get_level
        [⟨"b1", "", "", true, false, .beginner, ""⟩, ⟨"b2", "", "", true, false, .beginner, ""⟩,
         ⟨"b3", "", "", true, false, .beginner, ""⟩,
         ⟨"i1", "", "", false, false, .intermediate, ""⟩,
         ⟨"i2", "", "", false, false, .intermediate, ""⟩] = Level.beginner
    ∧ get_level
        [⟨"b1", "", "", true, false, .beginner, ""⟩, ⟨"b2", "", "", true, false, .beginner, ""⟩,
         ⟨"i1", "", "", true, false, .intermediate, ""⟩,
         ⟨"i2", "", "", true, false, .intermediate, ""⟩,
         ⟨"i3", "", "", false, false, .intermediate, ""⟩,
         ⟨"a1", "", "", false, false, .advanced, ""⟩] = Level.intermediate
    ∧ get_level
        [⟨"b1", "", "", true, false, .beginner, ""⟩,
         ⟨"i1", "", "", true, false, .intermediate, ""⟩,
         ⟨"a1", "", "", true, false, .advanced, ""⟩,
         ⟨"a2", "", "", false, false, .advanced, ""⟩] = Level.advanced := by
  have main : ∀ results : List AssessResult,
      get_level results =
        if spec_accuracy results .advanced ≥ 1/2 ∧ spec_accuracy results .intermediate ≥ 1/2
        then Level.advanced
        else if spec_accuracy results .intermediate ≥ 1/2
            ∧ spec_accuracy results .beginner ≥ 1/2
        then Level.intermediate
        else Level.beginner := by
    intro results
    unfold get_level
    by_cases hE : results.isEmpty
    · rw [if_pos hE]
      have h0 : results = [] := List.isEmpty_iff.mp hE
      subst h0
      have hz : ∀ lv, spec_accuracy [] lv = 0 := by
        intro lv
        simp [spec_accuracy, level_count]
      rw [if_neg, if_neg] <;> rw [hz, hz] <;> norm_num
    · rw [if_neg hE]
      simp only [level_pct_eq_spec]
  refine ⟨main, by rw [main []]; norm_num [spec_accuracy, level_count], ?_, ?_, ?_⟩
  · rw [main]
    simp only [spec_accuracy, level_count, level_score, List.countP_cons, List.countP_nil,
      beq_iff_eq]
    simp
    norm_num
  · rw [main]
    simp only [spec_accuracy, level_count, level_score, List.countP_cons, List.countP_nil,
      beq_iff_eq]
    simp
    norm_num
  · rw [main]
    simp only [spec_accuracy, level_count, level_score, List.countP_cons, List.countP_nil,
      beq_iff_eq]
    simp
    norm_num

/-! ### Claim C7: mastery clamping and in-progress removal -/

theorem dictGet_dictSet (d : List (String × Int)) (k : String) (v : Int) :
    dictGet (dictSet d k v) k = some v := by
  induction d with
  | nil => simp [dictSet, dictGet]
  | cons kv rest ih =>
    by_cases h : kv.1 = k
    · simp [dictSet, dictGet, h]
    · simp [dictSet, dictGet, h, ih]

theorem pyRemove_not_mem (l : List String) (t : String) (h : l.count t ≤ 1) :
    t ∉ pyRemove l t := by
  induction l with
  | nil => simp [pyRemove]
  | cons x rest ih =>
    by_cases hx : x = t
    · subst hx
      rw [List.count_cons_self] at h
      have h0 : rest.count x = 0 := by omega
      have hr : pyRemove (x :: rest) x = rest := by simp [pyRemove]
      rw [hr]
      exact List.count_eq_zero.mp h0
    · rw [List.count_cons_of_ne (fun he => hx he.symm)] at h
      have hxf : (x == t) = false := by simp [hx]
      have hr : pyRemove (x :: rest) t = x :: pyRemove rest t := by
        simp [pyRemove, hxf]
      rw [hr]
      simp only [List.mem_cons, not_or]
      exact ⟨fun he => hx he.symm, ih h⟩

/-- Claim C7 (counterexample): the claim as stated fails on the code.
`list.remove` deletes only the first occurrence, so on a state where
the topic appears twice in `topics_in_progress`, the topic is still in
progress after `update_mastery(topic, 70)`. -/
theorem c7_counterexample :
    "a" ∈ (update_mastery ⟨[], ["a", "a"], [], []⟩ "a" 70).topics_in_progress := by decide

/-- Claim C7 (amended): after `update_mastery(topic, score)` the stored
mastery value for the topic is exactly `min(100, max(0, score))`, which
lies in [0, 100]; and when `score ≥ 70` the topic is no longer in
`topics_in_progress`, provided it occurred there at most once (the
set semantics the data model intends). -/
theorem c7_update_mastery (k : KnowledgeState) (topic : String) (score : Int) :
    dictGet (update_mastery k topic score).topics_mastered topic = some (min 100 (max 0 score))
    ∧ 0 ≤ min 100 (max 0 score)
    ∧ min 100 (max 0 score) ≤ 100
    ∧ (score ≥ 70 → k.topics_in_progress.count topic ≤ 1 →
        topic ∉ (update_mastery k topic score).topics_in_progress) := by
  refine ⟨?_, by omega, by omega, ?_⟩
  · unfold update_mastery
    by_cases h : (decide (score ≥ 70) && k.topics_in_progress.contains topic) = true
    · rw [if_pos h]
      exact dictGet_dictSet k.topics_mastered topic _
    · rw [if_neg h]
      exact dictGet_dictSet k.topics_mastered topic _
  · intro hscore hcount
    unfold update_mastery
    by_cases hmem : k.topics_in_progress.contains topic = true
    · rw [if_pos (by rw [hmem, decide_eq_true hscore, Bool.true_and])]
      exact pyRemove_not_mem k.topics_in_progress topic hcount
    · have hcf : k.topics_in_progress.contains topic = false := by
        cases hb : k.topics_in_progress.contains topic
        · rfl
        · exact absurd hb hmem
      rw [if_neg (by rw [hcf, Bool.and_false]; exact Bool.false_ne_true)]
      intro habs
      exact hmem (List.elem_eq_true_of_mem habs)

/-- Concrete instantiation of `c7_update_mastery`: a passing score of
85 on a topic that is in progress once. -/
theorem c7_update_mastery_witness :
    dictGet (update_mastery ⟨[("x", 50)], ["a"], [], []⟩ "a" 85).topics_mastered "a" = some 85
    ∧ "a" ∉ (update_mastery ⟨[("x", 50)], ["a"], [], []⟩ "a" 85).topics_in_progress := by
  have h := c7_update_mastery ⟨[("x", 50)], ["a"], [], []⟩ "a" 85
  exact ⟨by rw [h.1]; norm_num, h.2.2.2 (by norm_num) (by decide)⟩

/-! ### Claim C8: conversation-history cap and questions-asked counter -/

theorem last20_merge (l m : List Exchange) :
    last20 (last20 l ++ m) = last20 (l ++ m) := by
  unfold last20
  rw [← List.drop_append_of_le_length (Nat.sub_le l.length 20), List.drop_drop]
  congr 1
  simp only [List.length_append, List.length_drop]
  omega

theorem last20_length (l : List Exchange) : (last20 l).length ≤ 20 := by
  unfold last20
  rw [List.length_drop]
  omega

theorem last20_of_le (l : List Exchange) (h : l.length ≤ 20) : last20 l = l := by
  unfold last20
  have h0 : l.length - 20 = 0 := by omega
  rw [h0, List.drop_zero]

theorem add_exchange_history (st : SessionState) (r c : String) (t : Nat) :
    (add_exchange st r c t).conversation_history
      = last20 (st.conversation_history ++ [mkExchange (r, c, t)]) := by
  simp only [add_exchange, mkExchange]
  by_cases h : (st.conversation_history ++ [(⟨r, c, t⟩ : Exchange)]).length > 20
  · rw [if_pos h]
    rfl
  · rw [if_neg h]
    rw [last20_of_le _ (by omega)]

theorem record_exchange_history (st : SessionState) (r c : String) (t : Nat) :
    (record_exchange st r c t).conversation_history
      = last20 (st.conversation_history ++ [mkExchange (r, c, t)]) := by
  unfold record_exchange
  by_cases h : (r == "assistant") = true
  · rw [if_pos h]
    exact add_exchange_history st r c t
  · rw [if_neg h]
    exact add_exchange_history st r c t

theorem record_exchange_questions_asked (st : SessionState) (r c : String) (t : Nat) :
    (record_exchange st r c t).questions_asked
      = st.questions_asked + (if r = "assistant" then 1 else 0) := by
  unfold record_exchange add_exchange
  by_cases h : r = "assistant"
  · simp [h]
  · simp [h]

theorem applyExchanges_history (calls : List (String × String × Nat)) :
    ∀ st : SessionState, st.conversation_history.length ≤ 20 →
      (applyExchanges st calls).conversation_history
        = last20 (st.conversation_history ++ calls.map mkExchange) := by
  induction calls with
  | nil =>
    intro st h
    unfold applyExchanges
    rw [List.map_nil, List.append_nil, last20_of_le _ h]
  | cons c rest ih =>
    intro st h
    show (applyExchanges (record_exchange st c.1 c.2.1 c.2.2) rest).conversation_history = _
    rw [ih _ (by rw [record_exchange_history]; exact last20_length _)]
    rw [record_exchange_history, last20_merge, List.map_cons, List.append_assoc,
      List.singleton_append]

theorem applyExchanges_questions_asked (calls : List (String × String × Nat)) :
    ∀ st : SessionState,
      (applyExchanges st calls).questions_asked
        = st.questions_asked + calls.countP (fun call => decide (call.1 = "assistant")) := by
  induction calls with
  | nil =>
    intro st
    unfold applyExchanges
    rw [List.countP_nil]
    omega
  | cons c rest ih =>
    intro st
    show (applyExchanges (record_exchange st c.1 c.2.1 c.2.2) rest).questions_asked = _
    rw [ih, record_exchange_questions_asked, List.countP_cons]
    by_cases h : c.1 = "assistant"
    · simp [h]
      omega
    · simp [h]

/-- Claim C8: starting from a fresh session, the conversation history
after any sequence of `record_exchange` calls is exactly the most
recent 20 entries in call order (hence never more than 20, and exactly
20 once more than 20 calls were made), and `questions_asked` counts
exactly the calls with the assistant role — each call incrementing it
by 1 iff its role is `"assistant"`. -/
theorem c8_history_cap (lid : String) (calls : List (String × String × Nat)) :
    ((applyExchanges { learner_id := lid } calls).conversation_history
      = (calls.map mkExchange).drop (calls.length - 20))
    ∧ (applyExchanges { learner_id := lid } calls).conversation_history.length ≤ 20
    ∧ (20 < calls.length →
        (applyExchanges { learner_id := lid } calls).conversation_history.length = 20)
    ∧ ((applyExchanges { learner_id := lid } calls).questions_asked
      = calls.countP (fun call => decide (call.1 = "assistant")))
    ∧ (∀ (st : SessionState) (r c : String) (t : Nat),
        (record_exchange st r c t).questions_asked
          = st.questions_asked + (if r = "assistant" then 1 else 0)) := by
  have hh : (applyExchanges { learner_id := lid } calls).conversation_history
      = last20 (calls.map mkExchange) := by
    rw [applyExchanges_history calls { learner_id := lid } (by simp)]
    rfl
  have hlen : (calls.map mkExchange).length = calls.length := List.length_map _ _
  refine ⟨?_, ?_, ?_, ?_, record_exchange_questions_asked⟩
  · rw [hh]
    unfold last20
    rw [hlen]
  · rw [hh]
    exact last20_length _
  · intro hN
    rw [hh]
    unfold last20
    rw [List.length_drop]
    omega
  · rw [applyExchanges_questions_asked calls { learner_id := lid }]
    simp

/-- Concrete instantiation of `c8_history_cap`: 21 assistant calls
leave exactly 20 history entries and count 21 questions asked. -/
theorem c8_history_cap_witness :
    (applyExchanges { learner_id := "L" }
        (List.replicate 21 ("assistant", "hi", 0))).conversation_history.length = 20
    ∧ (applyExchanges { learner_id := "L" }
        (List.replicate 21 ("assistant", "hi", 0))).questions_asked = 21 := by
  have h := c8_history_cap "L" (List.replicate 21 ("assistant", "hi", 0))
  exact ⟨h.2.2.1 (by decide), h.2.2.2.1.trans (by decide)⟩

/-! ### Claim C9: the orchestrator's index-keyed level rule -/

theorem correct_by_level_pos (questions : List GenQuestion) (answers : List AssessAnswer)
    (lv : Level) :
    0 < correct_by_level questions answers lv ↔
      ∃ p ∈ answers.zip questions, p.1.correct = true ∧ p.2.level = lv := by
  unfold correct_by_level
  rw [List.countP_pos_iff]
  constructor
  · rintro ⟨p, hp, hcond⟩
    simp only [Bool.and_eq_true, beq_iff_eq] at hcond
    exact ⟨p, hp, hcond⟩
  · rintro ⟨p, hp, h1, h2⟩
    exact ⟨p, hp, by simp [h1, h2]⟩

/-- Claim C9: when the orchestrator completes its index-keyed
assessment, the computed level is advanced iff some answer tallied at
the advanced level is correct and some answer tallied at the
intermediate level is correct; otherwise intermediate iff some
intermediate-tallied and some beginner-tallied answers are correct;
otherwise beginner — where answer `i` is tallied under the level of
the `i`-th generated question (the zip of answers with questions). -/
theorem c9_assessment_level_rule (questions : List GenQuestion) (answers : List AssessAnswer) :
    (complete_assessment_level questions answers = .advanced ↔
      (∃ p ∈ answers.zip questions, p.1.correct = true ∧ p.2.level = Level.advanced)
      ∧ (∃ p ∈ answers.zip questions, p.1.correct = true ∧ p.2.level = Level.intermediate))
    ∧ (complete_assessment_level questions answers = .intermediate ↔
      ¬((∃ p ∈ answers.zip questions, p.1.correct = true ∧ p.2.level = Level.advanced)
        ∧ (∃ p ∈ answers.zip questions, p.1.correct = true ∧ p.2.level = Level.intermediate))
      ∧ ((∃ p ∈ answers.zip questions, p.1.correct = true ∧ p.2.level = Level.intermediate)
        ∧ (∃ p ∈ answers.zip questions, p.1.correct = true ∧ p.2.level = Level.beginner)))
    ∧ (complete_assessment_level questions answers = .beginner ↔
      ¬((∃ p ∈ answers.zip questions, p.1.correct = true ∧ p.2.level = Level.advanced)
        ∧ (∃ p ∈ answers.zip questions, p.1.correct = true ∧ p.2.level = Level.intermediate))
      ∧ ¬((∃ p ∈ answers.zip questions, p.1.correct = true ∧ p.2.level = Level.intermediate)
        ∧ (∃ p ∈ answers.zip questions, p.1.correct = true ∧ p.2.level = Level.beginner))) := by
  have key := correct_by_level_pos questions answers
  unfold complete_assessment_level
  by_cases h1 : 0 < correct_by_level questions answers .advanced
      ∧ 0 < correct_by_level questions answers .intermediate
  · rw [if_pos (by simp only [Bool.and_eq_true, decide_eq_true_eq]; exact ⟨h1.1, h1.2⟩)]
    have hE : (∃ p ∈ answers.zip questions, p.1.correct = true ∧ p.2.level = Level.advanced)
        ∧ (∃ p ∈ answers.zip questions, p.1.correct = true ∧ p.2.level = Level.intermediate) :=
      ⟨(key _).mp h1.1, (key _).mp h1.2⟩
    refine ⟨iff_of_true rfl hE, iff_of_false (by simp) ?_, iff_of_false (by simp) ?_⟩
    · rintro ⟨hn, _⟩
      exact hn hE
    · rintro ⟨hn, _⟩
      exact hn hE
  · rw [if_neg (by simp only [Bool.and_eq_true, decide_eq_true_eq]; exact h1)]
    have hn1 : ¬((∃ p ∈ answers.zip questions, p.1.correct = true ∧ p.2.level = Level.advanced)
        ∧ (∃ p ∈ answers.zip questions, p.1.correct = true ∧ p.2.level = Level.intermediate)) := by
      rintro ⟨ha, hi⟩
      exact h1 ⟨(key _).mpr ha, (key _).mpr hi⟩
    by_cases h2 : 0 < correct_by_level questions answers .intermediate
        ∧ 0 < correct_by_level questions answers .beginner
    · rw [if_pos (by simp only [Bool.and_eq_true, decide_eq_true_eq]; exact ⟨h2.1, h2.2⟩)]
      have hE2 : (∃ p ∈ answers.zip questions, p.1.correct = true ∧ p.2.level = Level.intermediate)
          ∧ (∃ p ∈ answers.zip questions, p.1.correct = true ∧ p.2.level = Level.beginner) :=
        ⟨(key _).mp h2.1, (key _).mp h2.2⟩
      refine ⟨iff_of_false (by simp) (fun hE => hn1 hE),
              iff_of_true rfl ⟨hn1, hE2⟩,
              iff_of_false (by simp) ?_⟩
      rintro ⟨_, hn2⟩
      exact hn2 hE2
    · rw [if_neg (by simp only [Bool.and_eq_true, decide_eq_true_eq]; exact h2)]
      have hn2 : ¬((∃ p ∈ answers.zip questions, p.1.correct = true ∧ p.2.level = Level.intermediate)
          ∧ (∃ p ∈ answers.zip questions, p.1.correct = true ∧ p.2.level = Level.beginner)) := by
        rintro ⟨hi, hb⟩
        exact h2 ⟨(key _).mpr hi, (key _).mpr hb⟩
      exact ⟨iff_of_false (by simp) (fun hE => hn1 hE),
             iff_of_false (by simp) (fun hE => hn2 hE.2),
             iff_of_true rfl ⟨hn1, hn2⟩⟩

/-- Concrete instantiation of `c9_assessment_level_rule`: one correct
answer at a beginner-level question alone classifies as beginner. -/
theorem c9_assessment_level_rule_witness :
    complete_assessment_level [⟨"q1", .beginner, "", ""⟩] [⟨"q1", "x", true, 0⟩]
      = Level.beginner := by
  have h := c9_assessment_level_rule [⟨"q1", .beginner, "", ""⟩] [⟨"q1", "x", true, 0⟩]
  exact h.2.2.mpr (by decide)

/-! ### Claim C10: empty-string topics are excluded from gaps and strengths -/

theorem gaps_loop_eq (results : List AssessResult) :
    ∀ acc, gaps_loop results acc
      = dedupFirstLoop
          ((results.filter (fun r => !r.correct && !r.partialFlag && r.topic != "")).map
            (fun r => r.topic)) acc := by
  induction results with
  | nil => intro acc; rfl
  | cons r rest ih =>
    intro acc
    by_cases hc : r.correct <;> by_cases hp : r.partialFlag <;>
      by_cases ht : r.topic = "" <;> by_cases h3 : acc.contains r.topic <;>
      simp_all [gaps_loop, dedupFirstLoop, List.filter_cons]

theorem strengths_loop_eq (results : List AssessResult) :
    ∀ acc, strengths_loop results acc
      = dedupFirstLoop
          ((results.filter (fun r => r.correct && r.topic != "")).map (fun r => r.topic)) acc := by
  induction results with
  | nil => intro acc; rfl
  | cons r rest ih =>
    intro acc
    by_cases hc : r.correct <;>
      by_cases ht : r.topic = "" <;> by_cases h3 : acc.contains r.topic <;>
      simp_all [strengths_loop, dedupFirstLoop, List.filter_cons]

/-- Claim C10: `get_knowledge_gaps` collects exactly the topics of
incorrect, non-partial results with a non-empty topic, deduplicated in
insertion order, and `get_strengths` collects exactly the topics of
correct results with a non-empty topic likewise; consequently a
qualifying result whose topic is the empty string contributes no
entry to either list. -/
theorem c10_empty_topic_excluded :
    (∀ results : List AssessResult,
      get_knowledge_gaps results
        = dedupFirst
            ((results.filter (fun r => !r.correct && !r.partialFlag && r.topic != "")).map
              (fun r => r.topic))
      ∧ get_strengths results
        = dedupFirst ((results.filter (fun r => r.correct && r.topic != "")).map
            (fun r => r.topic)))
    ∧ (∀ (pre post : List AssessResult) (r : AssessResult), r.topic = "" →
        get_knowledge_gaps (pre ++ r :: post) = get_knowledge_gaps (pre ++ post)
        ∧ get_strengths (pre ++ r :: post) = get_strengths (pre ++ post)) := by
  have main : ∀ results : List AssessResult,
      get_knowledge_gaps results
        = dedupFirst
            ((results.filter (fun r => !r.correct && !r.partialFlag && r.topic != "")).map
              (fun r => r.topic))
      ∧ get_strengths results
        = dedupFirst ((results.filter (fun r => r.correct && r.topic != "")).map
            (fun r => r.topic)) :=
    fun results => ⟨gaps_loop_eq results [], strengths_loop_eq results []⟩
  refine ⟨main, ?_⟩
  intro pre post r hr
  have hg : (!r.correct && !r.partialFlag && r.topic != "") = false := by
    rw [hr]
    simp
  have hs : (r.correct && r.topic != "") = false := by
    rw [hr]
    simp
  constructor
  · rw [(main _).1, (main _).1, List.filter_append, List.filter_append,
      List.filter_cons_of_neg (by simp [hg])]
  · rw [(main _).2, (main _).2, List.filter_append, List.filter_append,
      List.filter_cons_of_neg (by simp [hs])]

/-- Concrete instantiation of `c10_empty_topic_excluded`: results with
empty topics contribute nothing. -/
theorem c10_empty_topic_excluded_witness :
    get_knowledge_gaps [⟨"q", "", "", false, false, .beginner, ""⟩] = get_knowledge_gaps []
    ∧ get_strengths [⟨"q2", "", "", true, false, .beginner, ""⟩] = get_strengths [] := by
  have h := c10_empty_topic_excluded
  exact ⟨(h.2 [] [] ⟨"q", "", "", false, false, .beginner, ""⟩ rfl).1,
         (h.2 [] [] ⟨"q2", "", "", true, false, .beginner, ""⟩ rfl).2⟩
